import Mathlib

/-!
# Shallow embedding of the Warren signal/backtest engine

This file embeds, in Lean 4, the parts of the Warren repository that the
verified properties talk about:

* `src/app/core/policy.py` — risk-policy checks (`RiskPolicy`);
* `src/app/core/backtest.py` — the trade simulator (`BacktestEngine.run`,
  `BacktestEngine._check_exit`) and the metrics calculation
  (`BacktestEngine._calculate_metrics`);
* `src/app/core/strategy.py` — the signal strategy
  (`StrategyEngine.generate_recommendation`);
* `src/app/core/indicators.py` — the indicator pipeline consumed by the
  strategy.

Modelling conventions:

* Python floats are modelled as exact rationals (`ℚ`).  Pandas `NaN` cells
  are modelled as `Option ℚ` with `none` standing for `NaN`.  The IEEE
  special value `inf` appears only in the policy's profit-factor check and
  is modelled there by a dedicated two-constructor type.
* `round(x, n)` (Python's round-half-even) is modelled exactly on `ℚ`.
* Timestamps are modelled as integer day numbers; `Timedelta.days` between
  two of them is plain integer subtraction.
* Where a genuinely irrational value appears (`sqrt` in the Sharpe ratio,
  `x ** (1/years)` in CAGR) the embedded definition lives in `ℝ`.
-/

namespace Warren

/-! ## Configuration constants (src/app/config.py) -/

/-- `settings.MIN_TRADES_FOR_RELIABILITY = 30`. -/
def MIN_TRADES_FOR_RELIABILITY : ℕ := 30

/-- `settings.MIN_PROFIT_FACTOR = 1.0`. -/
def MIN_PROFIT_FACTOR : ℚ := 1

/-- `settings.MAX_DRAWDOWN_PCT = 50.0`. -/
def MAX_DRAWDOWN_PCT : ℚ := 50

/-- `settings.MIN_TOTAL_RETURN_PCT = 0.0`. -/
def MIN_TOTAL_RETURN_PCT : ℚ := 0

/-- `settings.MIN_DATA_WINDOW_DAYS = 730`. -/
def MIN_DATA_WINDOW_DAYS : ℤ := 730

/-- `settings.INITIAL_CAPITAL = 10000.0`. -/
def INITIAL_CAPITAL : ℚ := 10000

/-- `settings.POSITION_SIZE_PCT / 100.0` (backtest.py:108). -/
def positionSizePct : ℚ := 1 / 10

/-- `settings.TRADING_FEE_PCT / 100.0` (backtest.py:109). -/
def tradingFeePct : ℚ := 1 / 1000

/-- `settings.SLIPPAGE_PCT / 100.0` (backtest.py:110). -/
def slippagePct : ℚ := 1 / 2000

/-! ## Basic value model -/

/-- Python's `round` to an integer: round half to even (banker's rounding),
applied to an exact rational. -/
def roundHalfEven (x : ℚ) : ℤ :=
  let f : ℤ := ⌊x⌋
  let frac : ℚ := x - f
  if frac < 1 / 2 then f
  else if 1 / 2 < frac then f + 1
  else if f % 2 = 0 then f else f + 1

/-- Python's `round(x, 2)` on exact rationals. -/
def round2 (x : ℚ) : ℚ := (roundHalfEven (x * 100) : ℚ) / 100

/-- Truthiness of an optional float, as Python evaluates
`if v:` for `v : Optional[float]`: `None` and `0.0` are falsy. -/
def qTruthy : Option ℚ → Bool
  | none => false
  | some q => q != 0

/-- Render an integer with at least `k` digits, left-padded with zeros
(used for the fractional part of a fixed-point rendering). -/
def padDigits (k : ℕ) (n : ℕ) : String :=
  let s := toString n
  if s.length < k then String.mk (List.replicate (k - s.length) '0') ++ s else s

/-- Python's `f"{x:.2f}"` on an exact rational: two fractional digits,
half-even rounding.  (On binary floats Python rounds the binary value; on
the exact-rational model this is the exact-decimal idealization.) -/
def fmt2 (q : ℚ) : String :=
  let m : ℤ := roundHalfEven (q * 100)
  let sign := if m < 0 then "-" else ""
  sign ++ toString (m.natAbs / 100) ++ "." ++ padDigits 2 (m.natAbs % 100)

/-! ## Signals and recommendations (src/app/core/strategy.py:10-45) -/

/-- `class Signal(str, Enum)` — strategy.py:10-14. -/
inductive Signal
  | BUY
  | SELL
  | HOLD
deriving DecidableEq, Repr

/-- `class Recommendation` — strategy.py:17-34.  `entry_price`,
`stop_loss`, `take_profit` are `Optional[float]`. -/
structure Recommendation where
  signal : Signal
  confidence : ℚ
  entryPrice : Option ℚ := none
  stopLoss : Option ℚ := none
  takeProfit : Option ℚ := none
  rationale : String := ""
deriving DecidableEq, Repr

/-! ## Risk policy (src/app/core/policy.py) -/

/-- `@dataclass class PolicyViolation` — policy.py:7-14. -/
structure PolicyViolation where
  type : String
  message : String
  actualValue : Option ℚ := none
  thresholdValue : Option ℚ := none
  metricName : Option String := none
deriving DecidableEq, Repr

/-- A Python float that may be the IEEE infinity, as used by the cached
`profit_factor` consumed by `RiskPolicy.check_profit_factor`. -/
inductive PFloat
  | fin (q : ℚ)
  | inf
deriving DecidableEq, Repr

/-- `RiskPolicy.check_trades` — policy.py:20-31. -/
def checkTrades (totalTrades : ℕ) : Option PolicyViolation :=
  if totalTrades < MIN_TRADES_FOR_RELIABILITY then
    some { type := "insufficient_trades"
           message := "Insuficientes trades: " ++ toString totalTrades ++ " < "
             ++ toString MIN_TRADES_FOR_RELIABILITY ++ " mínimo requerido"
           actualValue := some (totalTrades : ℚ)
           thresholdValue := some (MIN_TRADES_FOR_RELIABILITY : ℚ)
           metricName := some "total_trades" }
  else none

/-- `RiskPolicy.check_window_days` — policy.py:33-44. -/
def checkWindowDays (windowDays : ℤ) : Option PolicyViolation :=
  if windowDays < MIN_DATA_WINDOW_DAYS then
    some { type := "insufficient_window"
           message := "Ventana de datos insuficiente: " ++ toString windowDays
             ++ " días < " ++ toString MIN_DATA_WINDOW_DAYS ++ " mínimo requerido"
           actualValue := some (windowDays : ℚ)
           thresholdValue := some (MIN_DATA_WINDOW_DAYS : ℚ)
           metricName := some "window_days" }
  else none

/-- `RiskPolicy.check_profit_factor` — policy.py:46-71.
`None` yields a "no disponible" violation; `inf`, or any float above
`1e10`, is treated as unbounded and acceptable; a finite value below
`MIN_PROFIT_FACTOR` yields a violation carrying the actual value and the
threshold.  (The f-string renders `settings.MIN_PROFIT_FACTOR = 1.0` as
`"1.0"`.) -/
def checkProfitFactor (profitFactor : Option PFloat) : Option PolicyViolation :=
  match profitFactor with
  | none =>
      some { type := "low_profit_factor"
             message := "Profit factor no disponible"
             actualValue := none
             thresholdValue := some MIN_PROFIT_FACTOR
             metricName := some "profit_factor" }
  | some PFloat.inf => none
  | some (PFloat.fin q) =>
      if 10 ^ 10 < q then none
      else if q < MIN_PROFIT_FACTOR then
        some { type := "low_profit_factor"
               message := "Profit factor insuficiente: " ++ fmt2 q
                 ++ " < 1.0 mínimo requerido"
               actualValue := some q
               thresholdValue := some MIN_PROFIT_FACTOR
               metricName := some "profit_factor" }
      else none

/-- `RiskPolicy.check_total_return` — policy.py:73-84. -/
def checkTotalReturn (totalReturn : ℚ) : Option PolicyViolation :=
  if totalReturn ≤ MIN_TOTAL_RETURN_PCT then
    some { type := "negative_return"
           message := "Retorno total insuficiente: " ++ fmt2 totalReturn
             ++ "% <= 0.0% mínimo requerido"
           actualValue := some totalReturn
           thresholdValue := some MIN_TOTAL_RETURN_PCT
           metricName := some "total_return" }
  else none

/-- `RiskPolicy.check_max_drawdown` — policy.py:86-97. -/
def checkMaxDrawdown (maxDrawdown : ℚ) : Option PolicyViolation :=
  if MAX_DRAWDOWN_PCT < maxDrawdown then
    some { type := "high_drawdown"
           message := "Drawdown máximo excedido: " ++ fmt2 maxDrawdown
             ++ "% > 50.0% máximo permitido"
           actualValue := some maxDrawdown
           thresholdValue := some MAX_DRAWDOWN_PCT
           metricName := some "max_drawdown" }
  else none

/-- `RiskPolicy.evaluate_all` — policy.py:99-136: run all five checks in
order and accumulate every violation. -/
def evaluateAll (totalTrades : ℕ) (windowDays : Option ℤ)
    (profitFactor : Option PFloat) (totalReturn : ℚ) (maxDrawdown : ℚ) :
    List PolicyViolation :=
  ((checkTrades totalTrades).toList
    ++ (match windowDays with
        | some w => (checkWindowDays w).toList
        | none => [])
    ++ (checkProfitFactor profitFactor).toList
    ++ (checkTotalReturn totalReturn).toList
    ++ (checkMaxDrawdown maxDrawdown).toList)

/-! ## Risk evaluation for live signals

`evaluate_risk_for_signal` is imported from `app.core.backtest` at
src/app/api/recommendation.py:8 and exercised by
src/tests/test_policy_violations.py, but its definition is not among the
provided sources; it is modelled here from the specification. -/

/-- Cache-validity flags produced by the repository layer and consumed
opaquely by the evaluator (spec §6, "Policy inputs"). -/
structure CacheValidation where
  isStale : Bool := false
  isInconsistent : Bool := false
  reason : Option String := none
deriving DecidableEq, Repr

/-- The subset of cached backtest metrics the evaluator reads
(`total_trades`, `profit_factor`, `total_return`, `max_drawdown`). -/
structure RiskMetricsIn where
  totalTrades : ℕ
  profitFactor : Option PFloat
  totalReturn : ℚ
  maxDrawdown : ℚ
deriving DecidableEq, Repr

/-- Result shape of `evaluate_risk_for_signal` (spec §4.5 contract). -/
structure RiskEvalResult where
  isBlocked : Bool
  blockReason : Option String
  blockReasons : List String
  violations : List PolicyViolation
  isStale : Bool
  staleReason : Option String
deriving DecidableEq, Repr

/-- Modelled from the spec: `evaluate_risk_for_signal` (declared in
`app.core.backtest`, absent from the provided sources; spec §4.5).
Priority order: (1) a stale cache blocks with the cache validation's
reason, `is_stale = True`, and **no** metric violations (early return);
(2) an inconsistent cache blocks with the cache validation's reason
(early return); (3) absent `risk_metrics` blocks with
"No risk metrics available"; (4) otherwise all independent policy checks
run and every violation is accumulated; `is_blocked` iff any violation;
`block_reason` is the first violation's message; `block_reasons` all
messages in check order.  `risk_validation` is accepted and unused by the
§4.5 contract. -/
def evaluateRiskForSignal (riskMetrics : Option RiskMetricsIn)
    (_riskValidation : Option Unit) (cacheValidation : Option CacheValidation)
    (windowDays : Option ℤ) : RiskEvalResult :=
  match cacheValidation with
  | some cv =>
      if cv.isStale then
        { isBlocked := true
          blockReason := cv.reason
          blockReasons := cv.reason.toList
          violations := []
          isStale := true
          staleReason := cv.reason }
      else if cv.isInconsistent then
        { isBlocked := true
          blockReason := cv.reason
          blockReasons := cv.reason.toList
          violations := []
          isStale := false
          staleReason := none }
      else evaluateRiskMetricsPart riskMetrics windowDays
  | none => evaluateRiskMetricsPart riskMetrics windowDays
where
  /-- Steps (3) and (4) of the priority order. -/
  evaluateRiskMetricsPart (riskMetrics : Option RiskMetricsIn)
      (windowDays : Option ℤ) : RiskEvalResult :=
    match riskMetrics with
    | none =>
        { isBlocked := true
          blockReason := some "No risk metrics available"
          blockReasons := ["No risk metrics available"]
          violations := []
          isStale := false
          staleReason := none }
    | some m =>
        let vs := evaluateAll m.totalTrades windowDays m.profitFactor
          m.totalReturn m.maxDrawdown
        { isBlocked := !vs.isEmpty
          blockReason := (vs.head?).map PolicyViolation.message
          blockReasons := vs.map PolicyViolation.message
          violations := vs
          isStale := false
          staleReason := none }

/-! ## Trades (src/app/core/backtest.py:12-30) -/

/-- `@dataclass class Trade` — backtest.py:12-30.  Optional fields are
filled in at open/close exactly as the simulator does. -/
structure Trade where
  entryTime : ℤ
  exitTime : Option ℤ := none
  entryPrice : ℚ
  exitPrice : Option ℚ := none
  stopLoss : ℚ
  takeProfit : ℚ
  signal : Signal
  confidence : ℚ
  positionSize : Option ℚ := none
  positionValue : Option ℚ := none
  entryFee : Option ℚ := none
  exitFee : Option ℚ := none
  slippageCost : Option ℚ := none
  pnl : Option ℚ := none
  pnlPct : Option ℚ := none
  exitReason : Option String := none
deriving DecidableEq, Repr

/-- `BacktestEngine._check_exit` — backtest.py:316-346.  Returns the exit
price and reason, or `none` when the bar triggers no exit.  For a BUY
trade the stop (`low ≤ stop_loss`) is checked before the target
(`high ≥ take_profit`); for any other (SELL) trade the stop
(`high ≥ stop_loss`) is checked before the target (`low ≤ take_profit`). -/
def checkExit (sig : Signal) (stopLoss takeProfit : ℚ) (high low : ℚ) :
    Option (ℚ × String) :=
  match sig with
  | Signal.BUY =>
      if low ≤ stopLoss then some (stopLoss, "Stop Loss")
      else if takeProfit ≤ high then some (takeProfit, "Take Profit")
      else none
  | _ =>
      if stopLoss ≤ high then some (stopLoss, "Stop Loss")
      else if low ≤ takeProfit then some (takeProfit, "Take Profit")
      else none

/-! ## Trade-list metrics (src/app/core/backtest.py:368-401) -/

/-- Winning trades — backtest.py:369: `t.pnl_pct and t.pnl_pct > 0`
(truthiness: `None` and `0.0` are excluded). -/
def winningTrades (trades : List Trade) : List Trade :=
  trades.filter fun t =>
    match t.pnlPct with
    | some q => decide (0 < q)
    | none => false

/-- Losing trades — backtest.py:370: `t.pnl_pct and t.pnl_pct <= 0`
(truthiness: breakeven `0.0` trades land in **neither** list). -/
def losingTrades (trades : List Trade) : List Trade :=
  trades.filter fun t =>
    match t.pnlPct with
    | some q => decide (q < 0)
    | none => false

/-- `win_rate` — backtest.py:372-374:
`(win_count / total_trades) * 100 if total_trades > 0 else 0.0`. -/
def winRate (trades : List Trade) : ℚ :=
  if 0 < trades.length then
    ((winningTrades trades).length : ℚ) / (trades.length : ℚ) * 100
  else 0

/-- `avg_profit_pct` — backtest.py:391 (the sum ranges over the winning
trades, whose `pnl_pct` is necessarily present; `getD 0` is the innocuous
total reading of that access). -/
def avgProfitPct (trades : List Trade) : ℚ :=
  let ws := winningTrades trades
  if ws.isEmpty then 0
  else (ws.map fun t => t.pnlPct.getD 0).sum / (ws.length : ℚ)

/-- `avg_loss_pct` — backtest.py:392. -/
def avgLossPct (trades : List Trade) : ℚ :=
  let ls := losingTrades trades
  if ls.isEmpty then 0
  else |(ls.map fun t => t.pnlPct.getD 0).sum / (ls.length : ℚ)|

/-- `profit_factor` — backtest.py:393:
`avg_profit_pct / avg_loss_pct if avg_loss_pct > 0 else 0.0`.
Note that the value is always a number; in particular the
winners-but-no-losers case falls through to `0.0`. -/
def profitFactor (trades : List Trade) : ℚ :=
  if 0 < avgLossPct trades then avgProfitPct trades / avgLossPct trades else 0

/-- `expectancy` — backtest.py:400-401: mean nominal `pnl` over all
trades (trades with `pnl is None` contribute nothing to the sum but do
count in the denominator). -/
def expectancy (trades : List Trade) : ℚ :=
  if 0 < trades.length then
    (trades.map fun t => t.pnl.getD 0).sum / (trades.length : ℚ)
  else 0

/-! ## Equity-curve metrics (src/app/core/backtest.py:403-454)

The equity curve is a list of `{timestamp, equity}` points; timestamps are
modelled as integer day numbers, so that pandas'
`(end_date - start_date).days` is plain subtraction. -/

/-- One point of the equity curve. -/
structure EquityPoint where
  t : ℤ
  equity : ℚ
deriving DecidableEq, Repr

instance : Inhabited EquityPoint := ⟨⟨0, 0⟩⟩

/-- `equity_df.sort_values('timestamp')` — backtest.py:410 (a stable sort
by timestamp; the claims below apply it to already-sorted curves). -/
def sortedCurve (curve : List EquityPoint) : List EquityPoint :=
  curve.insertionSort fun a b => a.t ≤ b.t

/-- `initial_equity` — backtest.py:412 (first row of the sorted curve). -/
def initialEquity (curve : List EquityPoint) : ℚ :=
  ((sortedCurve curve).head?.getD default).equity

/-- `final_equity` — backtest.py:413 (last row of the sorted curve). -/
def finalEquity (curve : List EquityPoint) : ℚ :=
  ((sortedCurve curve).getLast?.getD default).equity

/-- `total_return` — backtest.py:414. -/
def totalReturn (curve : List EquityPoint) : ℚ :=
  (finalEquity curve - initialEquity curve) / initialEquity curve * 100

/-- `years = (end_date - start_date).days / 365.25` — backtest.py:417-419. -/
def curveYears (curve : List EquityPoint) : ℚ :=
  ((((sortedCurve curve).getLast?.getD default).t
    - ((sortedCurve curve).head?.getD default).t : ℤ) : ℚ) * 4 / 1461

/-- `cagr` — backtest.py:421-425: whenever `years > 0` the compound
formula `((final/initial) ** (1/years) - 1) * 100` is used (real-number
exponentiation), and only at `years == 0` does the code fall back to
`total_return`.  The code attaches no label of any kind. -/
noncomputable def cagr (curve : List EquityPoint) : ℝ :=
  if 0 < curveYears curve then
    (((finalEquity curve / initialEquity curve : ℚ) : ℝ)
        ^ ((1 : ℝ) / ((curveYears curve : ℚ) : ℝ)) - 1) * 100
  else (totalReturn curve : ℝ)

/-- `equity_df['equity'].pct_change()` then `dropna()` —
backtest.py:428-429: consecutive percentage changes, the leading `NaN`
dropped.  (The code divides floats; the model's `ℚ` division is total with
`q / 0 = 0`, which never differs on curves with positive equity.) -/
def pctChanges : List ℚ → List ℚ
  | [] => []
  | [_] => []
  | a :: b :: rest => (b - a) / a :: pctChanges (b :: rest)

/-- Mean of a list of rationals (pandas `Series.mean`). -/
def listMean (xs : List ℚ) : ℚ :=
  if xs.isEmpty then 0 else xs.sum / (xs.length : ℚ)

/-- Sample variance (square of pandas `Series.std`, which uses
`ddof = 1`). -/
def sampleVar (xs : List ℚ) : ℚ :=
  if xs.length ≤ 1 then 0
  else (xs.map fun x => (x - listMean xs) ^ 2).sum / ((xs.length : ℚ) - 1)

/-- `sharpe_ratio` — backtest.py:431-443: needs more than one return
point and positive volatility, else `0.0`; otherwise
`(mean / std) * sqrt(252) * 100` (note the extra `* 100`, commented
"En porcentaje").  `std > 0` is expressed equivalently as a positive
sample variance, with `std = sqrt(var)`. -/
noncomputable def sharpeRatio (curve : List EquityPoint) : ℝ :=
  let rets := pctChanges ((sortedCurve curve).map EquityPoint.equity)
  if 1 < rets.length then
    if 0 < sampleVar rets then
      ((listMean rets : ℚ) : ℝ) / Real.sqrt ((sampleVar rets : ℚ) : ℝ)
        * Real.sqrt 252 * 100
    else 0
  else 0

/-- `max_drawdown` — backtest.py:446-454: running-peak scan seeded with
the initial equity. -/
def maxDrawdown (curve : List EquityPoint) : ℚ :=
  let scan := ((sortedCurve curve).map EquityPoint.equity).foldl
    (fun (acc : ℚ × ℚ) e =>
      let peak := if acc.1 < e then e else acc.1
      let dd := (peak - e) / peak * 100
      (peak, if acc.2 < dd then dd else acc.2))
    (initialEquity curve, 0)
  scan.2

/-! ## Candles and indicator pipeline
(src/app/core/indicators.py, consumed by src/app/core/strategy.py)

A candle `DataFrame` is modelled as a column-name list (for the
missing-column guards) together with typed rows. -/

/-- One OHLCV row.  (`open` is a Lean keyword, hence `opn`.) -/
structure Candle where
  timestamp : ℤ
  opn : ℚ
  high : ℚ
  low : ℚ
  close : ℚ
  volume : ℚ
deriving DecidableEq, Repr

instance : Inhabited Candle := ⟨⟨0, 0, 0, 0, 0, 0⟩⟩

/-- A candle DataFrame: its schema plus its rows. -/
structure Frame where
  cols : List String
  rows : List Candle
deriving DecidableEq, Repr

/-- The standard schema (all five required columns present). -/
def stdCols : List String := ["timestamp", "open", "high", "low", "close", "volume"]

/-- `calculate_ema` — indicators.py:7-9: pandas
`ewm(span=period, adjust=False).mean()`: `y₀ = x₀`,
`yᵢ = (1-α)·yᵢ₋₁ + α·xᵢ` with `α = 2/(period+1)`.  Helper carrying the
previous output value. -/
def emaAux (alpha : ℚ) (prev : ℚ) : List ℚ → List ℚ
  | [] => []
  | x :: xs =>
    let e := (1 - alpha) * prev + alpha * x
    e :: emaAux alpha e xs

/-- `calculate_ema` — full output column. -/
def emaCol (span : ℕ) : List ℚ → List ℚ
  | [] => []
  | x :: xs => x :: emaAux (2 / ((span : ℚ) + 1)) x xs

/-- `calculate_sma` / any `rolling(n).mean()` — indicators.py:12-14:
`NaN` (`none`) until the window is full, then the trailing-window mean. -/
def rollingMean (n : ℕ) (xs : List ℚ) : List (Option ℚ) :=
  (List.range xs.length).map fun i =>
    if n ≤ i + 1 then some (((xs.take (i + 1)).drop (i + 1 - n)).sum / (n : ℚ))
    else none

/-- pandas `Series.diff(k)`: `xᵢ - xᵢ₋ₖ`, `NaN` for the first `k`
positions. -/
def diffCol (k : ℕ) (xs : List ℚ) : List (Option ℚ) :=
  (List.range xs.length).map fun i =>
    if k ≤ i then some (xs.getD i 0 - xs.getD (i - k) 0) else none

/-- `delta.where(delta > 0, 0)` — indicators.py:39: the gain series; a
leading `NaN` delta fails the comparison and is replaced by `0`. -/
def gainsCol (closes : List ℚ) : List ℚ :=
  (diffCol 1 closes).map fun d =>
    match d with
    | some q => if 0 < q then q else 0
    | none => 0

/-- `-delta.where(delta < 0, 0)` — indicators.py:40: the loss series
(non-negative). -/
def lossesCol (closes : List ℚ) : List ℚ :=
  (diffCol 1 closes).map fun d =>
    match d with
    | some q => if q < 0 then -q else 0
    | none => 0

/-- `calculate_rsi` — indicators.py:36-44: `rs = gain/loss`,
`rsi = 100 - 100/(1+rs)`, with the IEEE semantics of the float division:
`loss = 0` with positive gain gives `rs = ∞` hence `rsi = 100`;
`0/0` gives `NaN`. -/
def rsiCol (closes : List ℚ) : List (Option ℚ) :=
  List.zipWith
    (fun g l =>
      match g, l with
      | some g, some l =>
          if l = 0 then (if g = 0 then none else some 100)
          else some (100 - 100 / (1 + g / l))
      | _, _ => none)
    (rollingMean 14 (gainsCol closes)) (rollingMean 14 (lossesCol closes))

/-- The True Range series — indicators.py:66-78: at index `0` the
`max(axis=1)` skips the two `NaN` shifted terms and leaves `high - low`. -/
def trueRange (rows : List Candle) : List ℚ :=
  (List.range rows.length).map fun i =>
    let r := rows.getD i default
    if i = 0 then r.high - r.low
    else
      let pc := (rows.getD (i - 1) default).close
      max (r.high - r.low) (max |r.high - pc| |r.low - pc|)

/-- The most recent row of the indicator frame, restricted to the columns
`StrategyEngine` reads (`close`, `ema_12`, `ema_26`, `sma_20`, `macd`,
`macd_signal`, `rsi`, `atr`, `momentum`).  `calculate_all_indicators`
also fills `sma_50`, Bollinger bands and `macd_histogram`, which no
embedded behavior reads; they are omitted. -/
structure IndRow where
  close : ℚ
  ema12 : Option ℚ
  ema26 : Option ℚ
  sma20 : Option ℚ
  macd : Option ℚ
  macdSignal : Option ℚ
  rsi : Option ℚ
  atr : Option ℚ
  momentum : Option ℚ
deriving DecidableEq, Repr

/-- Last entry of an optional-valued column (`none` on an empty column or
a trailing `NaN`). -/
def lastOpt (xs : List (Option ℚ)) : Option ℚ := (xs.getLast?).join

/-- The last row of `calculate_all_indicators(df)` —
indicators.py:88-126 (`macd = ema_12 - ema_26`, `macd_signal` its EMA(9),
`rsi` period 14, `atr` period 14, `momentum = diff(10)`). -/
def calcIndicatorsLast (rows : List Candle) : IndRow :=
  let closes := rows.map Candle.close
  let macdLine := List.zipWith (fun a b => a - b) (emaCol 12 closes) (emaCol 26 closes)
  { close := (closes.getLast?).getD 0
    ema12 := (emaCol 12 closes).getLast?
    ema26 := (emaCol 26 closes).getLast?
    sma20 := lastOpt (rollingMean 20 closes)
    macd := macdLine.getLast?
    macdSignal := (emaCol 9 macdLine).getLast?
    rsi := lastOpt (rsiCol closes)
    atr := lastOpt (rollingMean 14 (trueRange rows))
    momentum := lastOpt (diffCol 10 closes) }

/-- The `try: calculate_all_indicators(candles) except` of
strategy.py:89-96 is modelled by an `Except`-valued computation.  On
typed numeric rows the exact-rational pipeline raises nothing, so the
result is always `ok`; the error branch is retained to mirror the code
path. -/
def calcAllIndicators (rows : List Candle) : Except String IndRow :=
  Except.ok (calcIndicatorsLast rows)

/-! ## Signal strategy (src/app/core/strategy.py:48-260) -/

/-- Python's `f"{x:.1f}"` on an exact rational (used in the RSI
rationale strings). -/
def fmt1 (q : ℚ) : String :=
  let m : ℤ := roundHalfEven (q * 10)
  let sign := if m < 0 then "-" else ""
  sign ++ toString (m.natAbs / 10) ++ "." ++ toString (m.natAbs % 10)

/-- `StrategyEngine._momentum_trend_strategy` — strategy.py:133-228.
Each rule yields `(buy contribution, sell contribution, reasons)`;
contributions are summed in rule order and the decision mirrors
strategy.py:214-228. -/
def momentumTrendStrategy (ind : IndRow) : Signal × ℚ × String :=
  let acc1 : ℚ × ℚ × List String :=
    match ind.ema12, ind.ema26 with
    | some e12, some e26 =>
        if e26 < e12 then (1/4, 0, ["EMA 12 > EMA 26 (uptrend)"])
        else (0, 1/4, ["EMA 12 < EMA 26 (downtrend)"])
    | _, _ => (0, 0, [])
  let acc2 : ℚ × ℚ × List String :=
    match ind.macd, ind.macdSignal with
    | some m, some ms =>
        if ms < m ∧ 0 < m then (1/4, 0, ["MACD bullish"])
        else if m < ms ∧ m < 0 then (0, 1/4, ["MACD bearish"])
        else (0, 0, [])
    | _, _ => (0, 0, [])
  let acc3 : ℚ × ℚ × List String :=
    match ind.rsi with
    | some r =>
        if 40 ≤ r ∧ r ≤ 70 then (1/5, 0, ["RSI neutral-bullish (" ++ fmt1 r ++ ")"])
        else if 30 ≤ r ∧ r ≤ 60 then (0, 1/5, ["RSI neutral-bearish (" ++ fmt1 r ++ ")"])
        else if 70 < r then (0, 0, ["RSI overbought (" ++ fmt1 r ++ ")"])
        else if r < 30 then (0, 0, ["RSI oversold (" ++ fmt1 r ++ ")"])
        else (0, 0, [])
    | none => (0, 0, [])
  let acc4 : ℚ × ℚ × List String :=
    match ind.sma20 with
    | some s =>
        if s < ind.close then (3/20, 0, ["Price > SMA 20"])
        else (0, 3/20, ["Price < SMA 20"])
    | none => (0, 0, [])
  let acc5 : ℚ × ℚ × List String :=
    match ind.momentum with
    | some m =>
        if 0 < m then (3/20, 0, ["Positive momentum"])
        else (0, 3/20, ["Negative momentum"])
    | none => (0, 0, [])
  let buyScore := acc1.1 + acc2.1 + acc3.1 + acc4.1 + acc5.1
  let sellScore := acc1.2.1 + acc2.2.1 + acc3.2.1 + acc4.2.1 + acc5.2.1
  let reasons := acc1.2.2 ++ acc2.2.2 ++ acc3.2.2 ++ acc4.2.2 ++ acc5.2.2
  if 1/2 ≤ buyScore ∧ sellScore < buyScore then
    (Signal.BUY, min buyScore (19/20), String.intercalate "; " reasons)
  else if 1/2 ≤ sellScore ∧ buyScore < sellScore then
    (Signal.SELL, min sellScore (19/20), String.intercalate "; " reasons)
  else
    let maxScore := max buyScore sellScore
    (Signal.HOLD, if 0 < maxScore then maxScore else 0,
      if reasons.isEmpty then "No clear signal" else String.intercalate "; " reasons)

/-- `StrategyEngine._calculate_sl_tp` — strategy.py:230-260: `HOLD`
yields no levels; BUY/SELL derive stop and target from ATR (2× / 3×),
rounded to two decimals. -/
def calcSlTp (sig : Signal) (entryPrice atr : ℚ) : Option ℚ × Option ℚ :=
  match sig with
  | Signal.HOLD => (none, none)
  | Signal.BUY => (some (round2 (entryPrice - 2 * atr)), some (round2 (entryPrice + 3 * atr)))
  | Signal.SELL => (some (round2 (entryPrice + 2 * atr)), some (round2 (entryPrice - 3 * atr)))

/-- The required columns checked by `generate_recommendation` —
strategy.py:79. -/
def requiredCols : List String := ["open", "high", "low", "close", "volume"]

/-- The missing-column list — strategy.py:80. -/
def missingColsOf (f : Frame) : List String :=
  requiredCols.filter fun c => !(f.cols.contains c)

/-- The `NaN`-guard on the critical indicators — strategy.py:102-104
(`rsi`, `macd`, `ema_12`, `ema_26`, `sma_20`, `atr`). -/
def criticalNaN (ind : IndRow) : Bool :=
  ind.rsi.isNone || ind.macd.isNone || ind.ema12.isNone
    || ind.ema26.isNone || ind.sma20.isNone || ind.atr.isNone

/-- `StrategyEngine.generate_recommendation` — strategy.py:54-131.
Guards in code order: fewer than 50 rows; missing required columns;
indicator-computation error; `NaN` among the critical indicators — each
degrades to a `HOLD` with confidence `0` and an explanatory rationale.
Otherwise the scoring strategy decides the signal and the ATR-based
levels; note that `entry_price` (the decision bar's close) is attached
to the result even when the decision is `HOLD`. -/
def generateRecommendation (f : Frame) : Recommendation :=
  if f.rows.length < 50 then
    { signal := Signal.HOLD, confidence := 0,
      rationale := "Insufficient data: " ++ toString f.rows.length
        ++ " candles (need 50)" }
  else if !(missingColsOf f).isEmpty then
    { signal := Signal.HOLD, confidence := 0,
      rationale := "Missing columns: " ++ String.intercalate ", " (missingColsOf f) }
  else
    match calcAllIndicators f.rows with
    | Except.error e =>
        { signal := Signal.HOLD, confidence := 0,
          rationale := "Error calculating indicators: " ++ e }
    | Except.ok ind =>
        if criticalNaN ind then
          { signal := Signal.HOLD, confidence := 0,
            rationale := "Insufficient data for indicator calculation (NaN values)" }
        else
          let res := momentumTrendStrategy ind
          let entryPrice := ind.close
          let atrValue := match ind.atr with
            | some a => a
            | none => entryPrice * (1/50)
          let sltp := calcSlTp res.1 entryPrice atrValue
          { signal := res.1
            confidence := res.2.1
            entryPrice := some entryPrice
            stopLoss := sltp.1
            takeProfit := sltp.2
            rationale := res.2.2 }

/-! ## Trade simulator (src/app/core/backtest.py:112-314)

`BacktestEngine` takes the strategy engine as a constructor argument
(backtest.py:105-106); the embedding accordingly takes the strategy as a
function from the visible candle prefix to a recommendation. -/

/-- The mutable loop state of `BacktestEngine.run` —
backtest.py:142-153. -/
structure SimState where
  equity : ℚ
  curTrade : Option Trade
  trades : List Trade
  curve : List EquityPoint
deriving DecidableEq, Repr

/-- Open a trade from a recommendation — backtest.py:168-201: slippage
applied to the entry price (BUY pays more, SELL receives less), position
sized as a fraction of current equity, entry fee and slippage cost
recorded. -/
def openTrade (rec : Recommendation) (candle : Candle) (equity : ℚ) : Trade :=
  let entryPriceBase := if qTruthy rec.entryPrice then rec.entryPrice.getD 0 else candle.close
  let entryPrice :=
    if rec.signal = Signal.BUY then entryPriceBase * (1 + slippagePct)
    else entryPriceBase * (1 - slippagePct)
  let positionValue := equity * positionSizePct
  { entryTime := candle.timestamp
    entryPrice := entryPrice
    stopLoss := rec.stopLoss.getD 0
    takeProfit := rec.takeProfit.getD 0
    signal := rec.signal
    confidence := rec.confidence
    positionSize := some (positionValue / entryPrice)
    positionValue := some positionValue
    entryFee := some (positionValue * tradingFeePct)
    slippageCost := some (positionValue * slippagePct) }

/-- Close an open trade at a raw exit price — backtest.py:211-248 (also
lines 270-304 for the end-of-data close): slippage in the adverse
direction, exit fee on the exit value, gross P&L by side, net P&L after
entry fee, exit fee and slippage cost, percentage P&L on the position
value, both rounded to two decimals.  Returns the closed trade and the
net P&L used to update equity.  The optional position fields are always
present on a trade built by `openTrade`; `getD 0` is the total reading
of the attribute accesses. -/
def closeTrade (tr : Trade) (exitPriceRaw : ℚ) (reason : String) (exitT : ℤ) :
    Trade × ℚ :=
  let exitPriceSlip :=
    if tr.signal = Signal.BUY then exitPriceRaw * (1 - slippagePct)
    else exitPriceRaw * (1 + slippagePct)
  let exitValue := tr.positionSize.getD 0 * exitPriceSlip
  let exitFee := exitValue * tradingFeePct
  let grossPnl :=
    if tr.signal = Signal.BUY then exitValue - tr.positionValue.getD 0
    else tr.positionValue.getD 0 - exitValue
  let totalCosts := tr.entryFee.getD 0 + exitFee + tr.slippageCost.getD 0
  let netPnl := grossPnl - totalCosts
  let pnlPct :=
    if 0 < tr.positionValue.getD 0 then netPnl / tr.positionValue.getD 0 * 100 else 0
  ({ tr with
      exitTime := some exitT
      exitPrice := some exitPriceSlip
      exitReason := some reason
      exitFee := some exitFee
      pnl := some (round2 netPnl)
      pnlPct := some (round2 pnlPct) }, netPnl)

/-- One iteration of the `while i < len(candles)` loop —
backtest.py:155-263, for bar index `i`.  With no open trade the strategy
is consulted on the prefix `candles[0..i]` and a BUY/SELL recommendation
with truthy stop and target opens a trade on this very bar; then — on the
same iteration — any open trade (including one just opened) is checked
against this bar's high/low and closed if stop or target is hit; finally
the equity-curve point for this bar is appended. -/
def simStep (strategy : List Candle → Recommendation) (candles : List Candle)
    (i : ℕ) (st : SimState) : SimState :=
  match candles[i]? with
  | none => st
  | some candle =>
    let st1 : SimState :=
      match st.curTrade with
      | some _ => st
      | none =>
        let rcm := strategy (candles.take (i + 1))
        if (rcm.signal = Signal.BUY ∨ rcm.signal = Signal.SELL)
            ∧ qTruthy rcm.stopLoss ∧ qTruthy rcm.takeProfit then
          { st with curTrade := some (openTrade rcm candle st.equity) }
        else st
    let st2 : SimState :=
      match st1.curTrade with
      | none => st1
      | some tr =>
        match checkExit tr.signal tr.stopLoss tr.takeProfit candle.high candle.low with
        | none => st1
        | some (exitPriceRaw, reason) =>
          let closed := closeTrade tr exitPriceRaw reason candle.timestamp
          { st1 with
              equity := st1.equity + closed.2
              trades := st1.trades ++ [closed.1]
              curTrade := none }
    { st2 with curve := st2.curve ++ [⟨candle.timestamp, round2 st2.equity⟩] }

/-- The force-close at the end of the series — backtest.py:266-305:
a still-open trade is closed at the last close price with reason
`"End of data"`. -/
def finalizeSim (candles : List Candle) (st : SimState) : SimState :=
  match st.curTrade with
  | none => st
  | some tr =>
    let lastCandle := (candles.getLast?).getD default
    let closed := closeTrade tr lastCandle.close "End of data" lastCandle.timestamp
    { st with
        equity := st.equity + closed.2
        trades := st.trades ++ [closed.1]
        curTrade := none }

/-- `BacktestEngine.run` — backtest.py:112-314: guards for fewer than 50
candles and for missing columns return the empty result; otherwise the
candles are sorted by timestamp, the initial equity point is recorded at
the first timestamp, the loop runs `simStep` for `i = 50 … len-1`, and a
trade left open is force-closed.  Returns the final state (trades in
entry order, equity curve). -/
def runSim (strategy : List Candle → Recommendation) (f : Frame) :
    Option SimState :=
  if f.rows.length < 50 then none
  else if !((stdCols.filter fun c => !(f.cols.contains c)).isEmpty) then none
  else
    let candles := f.rows.insertionSort fun a b => a.timestamp ≤ b.timestamp
    let first := (candles.head?).getD default
    let st0 : SimState :=
      { equity := INITIAL_CAPITAL
        curTrade := none
        trades := []
        curve := [⟨first.timestamp, INITIAL_CAPITAL⟩] }
    let stEnd := (List.range (candles.length - 50)).foldl
      (fun st j => simStep strategy candles (50 + j) st) st0
    some (finalizeSim candles stEnd)

/-! ## Spec-side reference definitions

For refinement-style comparisons, the following definitions transcribe the
*specification's wording* (not the source); they are compared against the
source-derived definitions above. -/

/-- The win rate as spec §4.4 words it:
"`count(pnl > 0) / total_trades · 100`" — winners identified by the
**nominal** `pnl`. -/
def specWinRate (trades : List Trade) : ℚ :=
  ((trades.filter fun t =>
    match t.pnl with
    | some q => decide (0 < q)
    | none => false).length : ℚ) / (trades.length : ℚ) * 100

/-! ## Concrete inputs used by the verification -/

/-- A simulator-shaped closed trade: an arbitrary but fully populated
record, from which the concrete inputs below are built by overriding
`pnl`/`pnl_pct`. -/
def baseTrade : Trade :=
  { entryTime := 0
    exitTime := some 1
    entryPrice := 100
    exitPrice := some 105
    stopLoss := 95
    takeProfit := 110
    signal := Signal.BUY
    confidence := 3/5
    positionSize := some 10
    positionValue := some 1000
    entryFee := some 1
    exitFee := some 1
    slippageCost := some (1/2)
    pnl := some 50
    pnlPct := some 5
    exitReason := some "Take Profit" }

/-- Ten winning trades (each `pnl_pct = 5.0`), no losers. -/
def winnersOnly : List Trade := List.replicate 10 baseTrade

/-- A trade whose nominal P&L is one cent (`pnl = 0.01 > 0`) on a 10000
position, so that its percentage P&L `0.0001` rounds to `pnl_pct = 0.0` —
exactly what the simulator records
(`round((0.01 / 10000) * 100, 2) = 0.0`). -/
def tinyWinTrade : Trade :=
  { baseTrade with
      positionValue := some 10000
      positionSize := some 100
      pnl := some (1/100)
      pnlPct := some 0 }

/-- Three breakeven trades (`pnl = 0`, `pnl_pct = 0`). -/
def breakevenTrades : List Trade :=
  List.replicate 3 { baseTrade with pnl := some 0, pnlPct := some 0 }

/-- An equity curve spanning 180 days with 10% growth. -/
def curveC2 : List EquityPoint := [⟨0, 10000⟩, ⟨180, 11000⟩]

/-- An equity curve with exactly 2 points (a single return point). -/
def curve2pt : List EquityPoint := [⟨0, 10000⟩, ⟨1, 10100⟩]

/-- An equity curve with 3 identical-equity points (zero volatility). -/
def curve3flat : List EquityPoint := [⟨0, 10000⟩, ⟨1, 10000⟩, ⟨2, 10000⟩]

/-- Build candle rows from a close series (`high = close + 1`,
`low = close - 1`, timestamps `0, 1, 2, …`). -/
def mkRows (closes : List ℚ) : List Candle :=
  (List.range closes.length).map fun (i : ℕ) =>
    { timestamp := (i : ℤ)
      opn := closes.getD i 0
      high := closes.getD i 0 + 1
      low := closes.getD i 0 - 1
      close := closes.getD i 0
      volume := 100 }

/-- 50 closes: a steady rise `100 … 139` followed by a 10-bar decline
`138 … 129`.  On the final bar the indicators give: EMA 12 > EMA 26
(buy 0.25), MACD positive but below its signal line (no score), RSI
≈ 28.6 — oversold, noted without score — price below SMA 20 (sell 0.15)
and negative momentum (sell 0.15): scores 0.25 vs 0.30, both below the
0.5 threshold, hence a scored `HOLD`. -/
def closesC5 : List ℚ :=
  ((List.range 40).map fun i => (100 + i : ℚ))
    ++ ((List.range 10).map fun i => (138 - i : ℚ))

/-- The 50-bar frame for the `HOLD`-with-entry-price counterexample. -/
def frameC5 : Frame := ⟨stdCols, mkRows closesC5⟩

/-- A frame with no rows (trips the insufficient-data guard). -/
def emptyFrame : Frame := ⟨stdCols, []⟩

/-- A constant BUY strategy for exercising the simulator loop body:
entry 100, stop 95, target 110. -/
def alwaysBuy : List Candle → Recommendation := fun _ =>
  { signal := Signal.BUY
    confidence := 3/5
    entryPrice := some 100
    stopLoss := some 95
    takeProfit := some 110
    rationale := "const" }

/-- 51 identical candles whose low (90) already breaches the stop (95). -/
def candlesW : List Candle :=
  List.replicate 51
    { timestamp := 7, opn := 100, high := 101, low := 90, close := 100, volume := 1 }

/-- The simulator state at the top of the loop. -/
def stW : SimState :=
  { equity := INITIAL_CAPITAL, curTrade := none, trades := [],
    curve := [⟨7, INITIAL_CAPITAL⟩] }

/-! ## Helper lemmas -/

/-- A string starting with a nonempty prefix is nonempty. -/
theorem strAppendNeEmptyLeft (s t : String) (h : s ≠ "") : s ++ t ≠ "" := by
  intro he
  apply h
  apply String.ext
  have hd := congrArg String.data he
  rw [String.data_append] at hd
  simpa using (List.append_eq_nil.mp hd).1

/-! ## Claim theorems -/

/-- C6: for an open BUY trade, a bar with `low ≤ stop_loss` and
`high ≥ take_profit` simultaneously closes at the stop-loss price with
reason "Stop Loss", never at the take-profit; symmetrically for SELL,
`high ≥ stop_loss` is checked before `low ≤ take_profit`, so the
stop-loss wins the same-bar tie-break. -/
theorem c6_stop_loss_priority (sl tp high low : ℚ) :
    (low ≤ sl → tp ≤ high →
      checkExit Signal.BUY sl tp high low = some (sl, "Stop Loss"))
    ∧ (sl ≤ high → low ≤ tp →
      checkExit Signal.SELL sl tp high low = some (sl, "Stop Loss")) := by
  constructor
  · intro h1 _
    simp [checkExit, h1]
  · intro h1 _
    simp [checkExit, h1]

/-- C6 witness: concrete same-bar tie-break for BUY
(stop 100, target 110, bar range [95, 120]) and SELL
(stop 110, target 90, bar range [85, 120]). -/
theorem c6_stop_loss_priority_witness :
    checkExit Signal.BUY 100 110 120 95 = some (100, "Stop Loss")
    ∧ checkExit Signal.SELL 110 90 120 85 = some (110, "Stop Loss") :=
  ⟨(c6_stop_loss_priority 100 110 120 95).1 (by norm_num) (by norm_num),
   (c6_stop_loss_priority 110 90 120 85).2 (by norm_num) (by norm_num)⟩

/-- C1 (bug evidence): on ten trades that are all winners
(`pnl_pct = 5.0` each) and no losers, the code's profit factor is the
plain number `0.0` — the same sentinel as the no-winners case — because
backtest.py:393 falls into its `else 0.0` branch whenever
`avg_loss_pct = 0`; the claim (and
`test_profit_factor_with_only_wins`) requires `None`. -/
theorem c1_profit_factor_winners_only_zero :
    (winningTrades winnersOnly).length = 10
    ∧ losingTrades winnersOnly = []
    ∧ profitFactor winnersOnly = 0 := by
  with_unfolding_all decide

/-- C7 counterexample: a single simulator-shaped trade with nominal
`pnl = 0.01 > 0` whose rounded `pnl_pct` is `0.0`
(`round((0.01/10000)*100, 2) = 0.0`).  The code counts winners by
`pnl_pct` truthiness (backtest.py:369), so `win_rate = 0.0`, while the
claim's formula `count(pnl > 0)/total·100` gives `100.0`. -/
theorem c7_win_rate_counterexample :
    round2 (1/100 / 10000 * 100) = 0
    ∧ winRate [tinyWinTrade] = 0
    ∧ specWinRate [tinyWinTrade] = 100
    ∧ winRate [tinyWinTrade] ≠ specWinRate [tinyWinTrade] := by
  with_unfolding_all decide

/-- C7 (amended): for every non-empty trade list, `win_rate` equals
`count(pnl_pct present and > 0) / total_trades · 100` — winners are
counted by the truthy positive **percentage** P&L, so breakeven trades
(`pnl_pct = 0` or absent) and losing trades both count as non-winners. -/
theorem c7_win_rate_amended (trades : List Trade) (h : trades ≠ []) :
    winRate trades =
      ((trades.countP fun t =>
        match t.pnlPct with
        | some q => decide (0 < q)
        | none => false : ℕ) : ℚ) / (trades.length : ℚ) * 100 := by
  have hl : 0 < trades.length := List.length_pos.mpr h
  rw [winRate, if_pos hl, winningTrades, ← List.countP_eq_length_filter]

/-- C7 witness: three breakeven trades (`pnl = 0`, `pnl_pct = 0`) yield
`win_rate = 0.0`. -/
theorem c7_win_rate_amended_witness : winRate breakevenTrades = 0 := by
  rw [c7_win_rate_amended breakevenTrades (by with_unfolding_all decide)]
  with_unfolding_all decide

/-- C8: the profit-factor policy check: `None` yields a
`low_profit_factor` violation with the "not available" message
(`"Profit factor no disponible"`); an infinite or effectively unbounded
(`> 1e10`) value yields no violation; a finite value below
`MIN_PROFIT_FACTOR` yields a violation; otherwise none.  Every violation
produced embeds the actual value (`actual_value` mirrors the input,
`None` included) and the threshold (`threshold_value =
MIN_PROFIT_FACTOR`); the below-threshold violation's message renders
both values. -/
theorem c8_profit_factor_check (q : ℚ) :
    checkProfitFactor none =
      some ⟨"low_profit_factor", "Profit factor no disponible",
        none, some MIN_PROFIT_FACTOR, some "profit_factor"⟩
    ∧ checkProfitFactor (some PFloat.inf) = none
    ∧ (10 ^ 10 < q → checkProfitFactor (some (PFloat.fin q)) = none)
    ∧ (q ≤ 10 ^ 10 → q < MIN_PROFIT_FACTOR →
        checkProfitFactor (some (PFloat.fin q)) =
          some ⟨"low_profit_factor",
            "Profit factor insuficiente: " ++ fmt2 q ++ " < 1.0 mínimo requerido",
            some q, some MIN_PROFIT_FACTOR, some "profit_factor"⟩)
    ∧ (MIN_PROFIT_FACTOR ≤ q → checkProfitFactor (some (PFloat.fin q)) = none)
    ∧ (∀ pf v, checkProfitFactor pf = some v →
        v.thresholdValue = some MIN_PROFIT_FACTOR
        ∧ v.actualValue = (match pf with
            | none => none
            | some PFloat.inf => none
            | some (PFloat.fin x) => some x)) := by
  refine ⟨rfl, rfl, ?_, ?_, ?_, ?_⟩
  · intro h
    simp [checkProfitFactor, h]
  · intro h1 h2
    rw [checkProfitFactor]
    rw [if_neg (by exact not_lt.mpr h1), if_pos h2]
  · intro h
    rw [checkProfitFactor]
    by_cases h1 : 10 ^ 10 < q
    · rw [if_pos h1]
    · rw [if_neg h1, if_neg (not_lt.mpr h)]
  · intro pf v hv
    match pf with
    | none =>
        rw [checkProfitFactor] at hv
        cases hv
        exact ⟨rfl, rfl⟩
    | some PFloat.inf =>
        rw [checkProfitFactor] at hv
        cases hv
    | some (PFloat.fin x) =>
        rw [checkProfitFactor] at hv
        by_cases h1 : 10 ^ 10 < x
        · rw [if_pos h1] at hv
          cases hv
        · rw [if_neg h1] at hv
          by_cases h2 : x < MIN_PROFIT_FACTOR
          · rw [if_pos h2] at hv
            cases hv
            exact ⟨rfl, rfl⟩
          · rw [if_neg h2] at hv
            cases hv

/-- C8 witness: `profit_factor = 0.5` (finite, below the 1.0 threshold)
produces the violation with both values rendered in the message. -/
theorem c8_profit_factor_check_witness :
    checkProfitFactor (some (PFloat.fin (1/2))) =
      some ⟨"low_profit_factor",
        "Profit factor insuficiente: 0.50 < 1.0 mínimo requerido",
        some (1/2), some 1, some "profit_factor"⟩ := by
  rw [(c8_profit_factor_check (1/2)).2.2.2.1 (by norm_num) (by with_unfolding_all decide)]
  with_unfolding_all decide

/-- C4: whenever the cache validation says the cache is stale, the risk
evaluation blocks the signal (`is_blocked`), flags it stale
(`is_stale`), takes the stale reason from the cache validation, and
computes no metric violations at all (`violations = []`) — an early
return before any policy check, regardless of the supplied metrics. -/
theorem c4_stale_short_circuit (rm : Option RiskMetricsIn) (rv : Option Unit)
    (cv : CacheValidation) (wd : Option ℤ) (h : cv.isStale = true) :
    (evaluateRiskForSignal rm rv (some cv) wd).isBlocked = true
    ∧ (evaluateRiskForSignal rm rv (some cv) wd).isStale = true
    ∧ (evaluateRiskForSignal rm rv (some cv) wd).violations = []
    ∧ (evaluateRiskForSignal rm rv (some cv) wd).staleReason = cv.reason := by
  simp [evaluateRiskForSignal, h]

/-- C4 witness: a stale cache combined with metrics that would violate
every policy check still yields no violations and a stale block. -/
theorem c4_stale_short_circuit_witness :
    (evaluateRiskForSignal
        (some ⟨10, some (PFloat.fin (1/2)), -5, 60⟩) none
        (some ⟨true, false, some "Data is stale: 25.0 hours old"⟩)
        (some 100)).isBlocked = true
    ∧ (evaluateRiskForSignal
        (some ⟨10, some (PFloat.fin (1/2)), -5, 60⟩) none
        (some ⟨true, false, some "Data is stale: 25.0 hours old"⟩)
        (some 100)).isStale = true
    ∧ (evaluateRiskForSignal
        (some ⟨10, some (PFloat.fin (1/2)), -5, 60⟩) none
        (some ⟨true, false, some "Data is stale: 25.0 hours old"⟩)
        (some 100)).violations = []
    ∧ (evaluateRiskForSignal
        (some ⟨10, some (PFloat.fin (1/2)), -5, 60⟩) none
        (some ⟨true, false, some "Data is stale: 25.0 hours old"⟩)
        (some 100)).staleReason = some "Data is stale: 25.0 hours old" :=
  c4_stale_short_circuit (some ⟨10, some (PFloat.fin (1/2)), -5, 60⟩) none
    ⟨true, false, some "Data is stale: 25.0 hours old"⟩ (some 100) rfl

/-- C9: the strategy fails soft.  For any frame with fewer than 50 rows,
or missing required columns, or a failing indicator computation, or a
`NaN` among the critical indicators (`rsi`, `macd`, `ema_12`, `ema_26`,
`sma_20`, `atr`) on the most recent bar, `generate_recommendation`
returns a `HOLD` with confidence `0` and a non-empty explanatory
rationale (no exception escapes: the embedded function is total). -/
theorem c9_fail_soft (f : Frame)
    (h : f.rows.length < 50 ∨ missingColsOf f ≠ []
      ∨ (∃ e, calcAllIndicators f.rows = Except.error e)
      ∨ criticalNaN (calcIndicatorsLast f.rows) = true) :
    (generateRecommendation f).signal = Signal.HOLD
    ∧ (generateRecommendation f).confidence = 0
    ∧ (generateRecommendation f).rationale ≠ "" := by
  rw [generateRecommendation]
  by_cases h1 : f.rows.length < 50
  · rw [if_pos h1]
    exact ⟨rfl, rfl, strAppendNeEmptyLeft _ _ (strAppendNeEmptyLeft _ _ (by decide))⟩
  · rw [if_neg h1]
    by_cases h2 : (missingColsOf f).isEmpty
    · rw [if_neg (by simp [h2])]
      simp only [calcAllIndicators]
      by_cases h3 : criticalNaN (calcIndicatorsLast f.rows) = true
      · rw [if_pos h3]
        exact ⟨rfl, rfl, by decide⟩
      · rw [if_neg h3]
        exfalso
        rcases h with h | h | ⟨e, he⟩ | h
        · exact h1 h
        · exact h (List.isEmpty_iff.mp h2)
        · rw [calcAllIndicators] at he
          cases he
        · exact h3 h
    · rw [if_pos (by simp [h2])]
      exact ⟨rfl, rfl, strAppendNeEmptyLeft _ _ (by decide)⟩

/-- C9 witness: the empty frame trips the insufficient-bars guard and
yields `HOLD` / `0` / non-empty rationale. -/
theorem c9_fail_soft_witness :
    (generateRecommendation emptyFrame).signal = Signal.HOLD
    ∧ (generateRecommendation emptyFrame).confidence = 0
    ∧ (generateRecommendation emptyFrame).rationale ≠ "" :=
  c9_fail_soft emptyFrame (Or.inl (by decide))

set_option maxHeartbeats 4000000 in
set_option maxRecDepth 100000 in
/-- C5 counterexample: a 50-bar frame on which the scoring decision is
`HOLD` (scores 0.25 buy vs 0.30 sell) — the recommendation carries
`entry_price = 129.0` (the decision bar's close, strategy.py:115/127)
even though the signal is `HOLD`, refuting "entry_price is present iff
signal ≠ HOLD"; the stop/target are `none` as claimed. -/
theorem c5_hold_entry_price_counterexample :
    (generateRecommendation frameC5).signal = Signal.HOLD
    ∧ (generateRecommendation frameC5).entryPrice = some 129
    ∧ (generateRecommendation frameC5).stopLoss = none
    ∧ (generateRecommendation frameC5).takeProfit = none := by
  with_unfolding_all decide

/-- C5 (amended): for every candle frame, `stop_loss` and `take_profit`
are present iff the signal is not `HOLD`; and a non-`HOLD` signal always
carries an `entry_price`.  (`entry_price` alone is *also* present on a
scored `HOLD`, which is what the counterexample exhibits.) -/
theorem c5_levels_iff_signal (f : Frame) :
    ((generateRecommendation f).stopLoss ≠ none
        ∧ (generateRecommendation f).takeProfit ≠ none
      ↔ (generateRecommendation f).signal ≠ Signal.HOLD)
    ∧ ((generateRecommendation f).signal ≠ Signal.HOLD →
        (generateRecommendation f).entryPrice ≠ none) := by
  rw [generateRecommendation]
  by_cases h1 : f.rows.length < 50
  · rw [if_pos h1]
    simp
  · rw [if_neg h1]
    by_cases h2 : (missingColsOf f).isEmpty
    · rw [if_neg (by simp [h2])]
      simp only [calcAllIndicators]
      by_cases h3 : criticalNaN (calcIndicatorsLast f.rows) = true
      · rw [if_pos h3]
        simp
      · rw [if_neg h3]
        rcases hm : momentumTrendStrategy (calcIndicatorsLast f.rows) with ⟨sig, conf, rat⟩
        cases sig <;> simp [hm, calcSlTp]
    · rw [if_pos (by simp [h2])]
      simp

/-- C5 amended-claim witness: the equivalence instantiated at the
concrete 50-bar frame of the counterexample. -/
theorem c5_levels_iff_signal_witness :
    ((generateRecommendation frameC5).stopLoss ≠ none
        ∧ (generateRecommendation frameC5).takeProfit ≠ none
      ↔ (generateRecommendation frameC5).signal ≠ Signal.HOLD)
    ∧ ((generateRecommendation frameC5).signal ≠ Signal.HOLD →
        (generateRecommendation frameC5).entryPrice ≠ none) :=
  c5_levels_iff_signal frameC5

set_option maxRecDepth 8000 in
/-- C2 (bug evidence): on an equity curve spanning 180 days with 10%
growth, `years = 180/365.25 ≈ 0.493` is positive, so backtest.py:421-423
takes the compound-annualization branch: the code's `cagr` is
`((1.1)^(365.25/180) - 1)·100 ≈ 21.4`, strictly greater than — in
particular not equal to — `total_return = 10.0`; the claim (and
`test_cagr_sub_year_period`) requires `cagr == total_return` for spans
under one year, with a not-annualized label the code never produces. -/
theorem c2_sub_year_cagr_compounds :
    totalReturn curveC2 = 10
    ∧ 0 < curveYears curveC2
    ∧ curveYears curveC2 < 1
    ∧ (totalReturn curveC2 : ℝ) < cagr curveC2 := by
  have hy : curveYears curveC2 = 240 / 487 := by
    norm_num [curveYears, curveC2, sortedCurve, List.insertionSort, List.orderedInsert]
  have hi : initialEquity curveC2 = 10000 := by
    norm_num [initialEquity, curveC2, sortedCurve, List.insertionSort, List.orderedInsert]
  have hf : finalEquity curveC2 = 11000 := by
    norm_num [finalEquity, curveC2, sortedCurve, List.insertionSort, List.orderedInsert]
  have ht : totalReturn curveC2 = 10 := by
    norm_num [totalReturn, finalEquity, initialEquity, curveC2, sortedCurve,
      List.insertionSort, List.orderedInsert]
  refine ⟨ht, by rw [hy]; norm_num, by rw [hy]; norm_num, ?_⟩
  rw [ht, cagr, if_pos (by rw [hy]; norm_num), hy, hi, hf]
  have hq : ((11000 / 10000 : ℚ) : ℝ) = 11 / 10 := by norm_num
  have he : ((1 : ℝ) / (((240 / 487 : ℚ) : ℚ) : ℝ)) = 487 / 240 := by norm_num
  rw [hq, he]
  have h1 : (11 / 10 : ℝ) ^ (1 : ℝ) < (11 / 10 : ℝ) ^ (487 / 240 : ℝ) := by
    rw [Real.rpow_lt_rpow_left_iff (by norm_num)]
    norm_num
  rw [Real.rpow_one] at h1
  push_cast
  nlinarith [h1]

/-- C3 (bug evidence): on an equity curve with exactly 2 points (a
single return) and on one with 3 identical-equity points (zero
volatility), the code's `sharpe_ratio` is the plain number `0.0`
(backtest.py:441-443) — not `None`, and with no `sharpe_reason` key in
its output at all; the claim (and `test_sharpe_ratio_insufficient_data`
/ `test_sharpe_ratio_zero_volatility`) requires `None` with explicit
reasons. -/
theorem c3_sharpe_zero_not_none :
    sharpeRatio curve2pt = 0 ∧ sharpeRatio curve3flat = 0 := by
  constructor
  · have h : (pctChanges ((sortedCurve curve2pt).map EquityPoint.equity)).length = 1 := by
      norm_num [curve2pt, sortedCurve, List.insertionSort, List.orderedInsert, pctChanges]
    simp [sharpeRatio, h]
  · have h : pctChanges ((sortedCurve curve3flat).map EquityPoint.equity) = [0, 0] := by
      norm_num [curve3flat, sortedCurve, List.insertionSort, List.orderedInsert, pctChanges]
    have h2 : sampleVar [(0 : ℚ), 0] = 0 := by
      norm_num [sampleVar, listMean]
    simp [sharpeRatio, h, h2]

/-- C10: in the loop body `simStep` (the body of `run`'s
`while i < len(candles)` loop, executed by `runSim` for each bar index),
a BUY trade opened at bar `i` is checked for exit against that same
bar's high/low in the same iteration: if the strategy emits BUY with
truthy stop/target and the entry bar's low already lies at or below the
stop-loss, the trade is appended already closed, with
`exit_time = entry_time` (the entry candle's timestamp), reason
"Stop Loss", and exit price equal to the stop adjusted by adverse
slippage — and no trade remains open. -/
theorem c10_same_bar_open_and_close (strategy : List Candle → Recommendation)
    (candles : List Candle) (i : ℕ) (st : SimState) (candle : Candle)
    (sl tp : ℚ)
    (hc : candles[i]? = some candle)
    (hopen : st.curTrade = none)
    (hsig : (strategy (candles.take (i + 1))).signal = Signal.BUY)
    (hsl : (strategy (candles.take (i + 1))).stopLoss = some sl)
    (hsl0 : sl ≠ 0)
    (htp : (strategy (candles.take (i + 1))).takeProfit = some tp)
    (htp0 : tp ≠ 0)
    (hlow : candle.low ≤ sl) :
    (simStep strategy candles i st).curTrade = none
    ∧ ∃ t, (simStep strategy candles i st).trades = st.trades ++ [t]
        ∧ t.entryTime = candle.timestamp
        ∧ t.exitTime = some candle.timestamp
        ∧ t.exitReason = some "Stop Loss"
        ∧ t.exitPrice = some (sl * (1 - slippagePct)) := by
  have hq1 : qTruthy (strategy (candles.take (i + 1))).stopLoss = true := by
    rw [hsl]
    simp [qTruthy, hsl0]
  have hq2 : qTruthy (strategy (candles.take (i + 1))).takeProfit = true := by
    rw [htp]
    simp [qTruthy, htp0]
  have hT : (openTrade (strategy (candles.take (i + 1))) candle st.equity).signal
      = Signal.BUY := by
    simp [openTrade, hsig]
  have hTs : (openTrade (strategy (candles.take (i + 1))) candle st.equity).stopLoss
      = sl := by
    simp [openTrade, hsl]
  have hE : checkExit
      (openTrade (strategy (candles.take (i + 1))) candle st.equity).signal
      (openTrade (strategy (candles.take (i + 1))) candle st.equity).stopLoss
      (openTrade (strategy (candles.take (i + 1))) candle st.equity).takeProfit
      candle.high candle.low = some (sl, "Stop Loss") := by
    rw [hT, hTs, checkExit]
    simp [hlow]
  rw [simStep, hc]
  simp only [hopen]
  rw [if_pos ⟨Or.inl hsig, hq1, hq2⟩]
  simp only [hE]
  refine ⟨trivial,
    (closeTrade (openTrade (strategy (candles.take (i + 1))) candle st.equity)
      sl "Stop Loss" candle.timestamp).1, rfl, ?_, ?_, ?_, ?_⟩ <;>
    simp [closeTrade, openTrade, hT, hsig]

/-- C10 witness: the constant-BUY strategy (stop 95) on a bar with
low 90 opens and closes the trade on that same bar. -/
theorem c10_same_bar_open_and_close_witness :
    (simStep alwaysBuy candlesW 50 stW).curTrade = none
    ∧ ∃ t, (simStep alwaysBuy candlesW 50 stW).trades = stW.trades ++ [t]
        ∧ t.entryTime = 7
        ∧ t.exitTime = some 7
        ∧ t.exitReason = some "Stop Loss"
        ∧ t.exitPrice = some (95 * (1 - slippagePct)) := by
  have h := c10_same_bar_open_and_close alwaysBuy candlesW 50 stW
    { timestamp := 7, opn := 100, high := 101, low := 90, close := 100, volume := 1 }
    95 110 (by with_unfolding_all decide) rfl rfl rfl (by norm_num) rfl (by norm_num)
    (by norm_num)
  simpa using h

end Warren
